import Mathlib

/-!
Verification of the `wsl_build` Sublime Text plugin (`src/wsl_exec.py`).

The plugin's `WslExecCommand` class has three pure translation routines and an
orchestration method:

  * `wsl_path`  : Windows path string → Unix path string
  * `wsl_env`   : environment mapping → environment mapping plus `WSLENV` manifest
  * `wsl_cmd`   : command list and working directory → full `wsl` argument list
  * `run`       : filters the raw build-system parameters, computes the fields
                  above, adds `unix_*` variables to the variable table, expands
                  variables and delegates to the host executor.

Python `dict` objects are modelled as association lists that preserve insertion
order, with assignment updating an existing key in place, `pop` removing the
entry, and fresh keys appended at the end — exactly CPython's ordered-dict
semantics.  Python strings are Lean `String`s; operations that CPython performs
on them (negative indexing, slicing, `str.replace`, `re.sub`) are modelled
character-list by character-list below.  A Python `IndexError`/`KeyError` is
modelled as `Except.error ()`.
-/

namespace WslBuild

/-! ## Ordered dictionaries (CPython `dict` semantics) -/

/-- Keys of an association list, in insertion order. -/
def dkeys (d : List (String × α)) : List String :=
  d.map (fun kv => kv.1)

/-- `d[k]` as an option: the value of the first entry with key `k`. -/
def dlookup (d : List (String × α)) (k : String) : Option α :=
  match d with
  | [] => none
  | kv :: rest => if kv.1 = k then some kv.2 else dlookup rest k

/-- Replace the value stored at key `k`, keeping the entry's position. -/
def dupdate (d : List (String × α)) (k : String) (v : α) : List (String × α) :=
  d.map (fun kv => if kv.1 = k then (k, v) else kv)

/-- `d[k] = v`: update in place when `k` is present, else append at the end.
This is CPython's ordered-dict assignment. -/
def dinsert (d : List (String × α)) (k : String) (v : α) : List (String × α) :=
  if k ∈ dkeys d then dupdate d k v else d ++ [(k, v)]

/-- `d.pop(k)` (the removal part): drop the entry with key `k`. -/
def dpop (d : List (String × α)) (k : String) : List (String × α) :=
  d.filter (fun kv => decide (kv.1 ≠ k))

/-! ## `wsl_path`: Windows → Unix path translation

Source (`src/wsl_exec.py`, lines 218–234):

```
def wsl_path(self, path):
    # remove UNC prefix for paths pointing to WSL environment
    if path.startswith("\\\\"):
        path = re.sub(r"\\\\wsl\.localhost\\[^\\]*", "", path)
    # convert local windows paths to WSL compliant unix format
    elif path[1:3] == ":\\":
        path = "".join(("/mnt/", path[0].lower(), path[2:]))
    return path.replace("\\", "/")
```
-/

/-- The literal part of the regular expression
`\\\\wsl\.localhost\\[^\\]*`: two backslashes, `wsl.localhost` (the dot
is escaped, hence literal), one backslash.  The trailing `[^\\]*` (the
distro name) is handled by `uncSubAux`. -/
def uncMarker : List Char := "\\\\wsl.localhost\\".data

/-- One left-to-right pass of `re.sub(r"\\\\wsl\.localhost\\[^\\]*", "", path)`:
at each position, if the literal marker matches, the marker and the following
greedy run of non-backslash characters (`[^\\]*`) are removed and scanning
resumes after the match; otherwise scanning advances one character.  `fuel`
only forces structural recursion; it is instantiated with the string length,
which every recursive call strictly decreases towards. -/
def uncSubAux : Nat → List Char → List Char
  | 0, cs => cs
  | _ + 1, [] => []
  | fuel + 1, c :: cs =>
    if uncMarker.isPrefixOf (c :: cs) then
      uncSubAux fuel (((c :: cs).drop uncMarker.length).dropWhile (fun ch => ch ≠ '\\'))
    else
      c :: uncSubAux fuel cs

/-- `re.sub(r"\\\\wsl\.localhost\\[^\\]*", "", ⟨cs⟩)`. -/
def uncSub (cs : List Char) : List Char :=
  uncSubAux cs.length cs

/-- `path.replace("\\", "/")` on character lists: the pattern is a single
character, so the substring replacement is a character map. -/
def slashesL (cs : List Char) : List Char :=
  cs.map (fun c => if c = '\\' then '/' else c)

/-- `path.replace("\\", "/")`. -/
def slashes (s : String) : String :=
  ⟨slashesL s.data⟩

set_option maxHeartbeats 1600000 in
/-- The Unicode lowercase mapping implemented by CPython's `str.lower`
(the UnicodeData simple mappings together with the one full mapping from
SpecialCasing that `lower` uses, `U+0130 → U+0069 U+0307`; Unicode 14.0 as
shipped with CPython 3.11): every code point whose lowercase image differs
from the code point itself, paired with the code points of that image.
Code points absent from this list (surrogates cannot inhabit `Char` and have
no mapping anyway) are left unchanged by `lower`. -/
def pyLowerTable : List (Nat × List Nat) := [
  (65, [97]), (66, [98]), (67, [99]), (68, [100]), (69, [101]), (70, [102]),
  (71, [103]), (72, [104]), (73, [105]), (74, [106]), (75, [107]), (76, [108]),
  (77, [109]), (78, [110]), (79, [111]), (80, [112]), (81, [113]), (82, [114]),
  (83, [115]), (84, [116]), (85, [117]), (86, [118]), (87, [119]), (88, [120]),
  (89, [121]), (90, [122]), (192, [224]), (193, [225]), (194, [226]), (195, [227]),
  (196, [228]), (197, [229]), (198, [230]), (199, [231]), (200, [232]), (201, [233]),
  (202, [234]), (203, [235]), (204, [236]), (205, [237]), (206, [238]), (207, [239]),
  (208, [240]), (209, [241]), (210, [242]), (211, [243]), (212, [244]), (213, [245]),
  (214, [246]), (216, [248]), (217, [249]), (218, [250]), (219, [251]), (220, [252]),
  (221, [253]), (222, [254]), (256, [257]), (258, [259]), (260, [261]), (262, [263]),
  (264, [265]), (266, [267]), (268, [269]), (270, [271]), (272, [273]), (274, [275]),
  (276, [277]), (278, [279]), (280, [281]), (282, [283]), (284, [285]), (286, [287]),
  (288, [289]), (290, [291]), (292, [293]), (294, [295]), (296, [297]), (298, [299]),
  (300, [301]), (302, [303]), (304, [105, 775]), (306, [307]), (308, [309]), (310, [311]),
  (313, [314]), (315, [316]), (317, [318]), (319, [320]), (321, [322]), (323, [324]),
  (325, [326]), (327, [328]), (330, [331]), (332, [333]), (334, [335]), (336, [337]),
  (338, [339]), (340, [341]), (342, [343]), (344, [345]), (346, [347]), (348, [349]),
  (350, [351]), (352, [353]), (354, [355]), (356, [357]), (358, [359]), (360, [361]),
  (362, [363]), (364, [365]), (366, [367]), (368, [369]), (370, [371]), (372, [373]),
  (374, [375]), (376, [255]), (377, [378]), (379, [380]), (381, [382]), (385, [595]),
  (386, [387]), (388, [389]), (390, [596]), (391, [392]), (393, [598]), (394, [599]),
  (395, [396]), (398, [477]), (399, [601]), (400, [603]), (401, [402]), (403, [608]),
  (404, [611]), (406, [617]), (407, [616]), (408, [409]), (412, [623]), (413, [626]),
  (415, [629]), (416, [417]), (418, [419]), (420, [421]), (422, [640]), (423, [424]),
  (425, [643]), (428, [429]), (430, [648]), (431, [432]), (433, [650]), (434, [651]),
  (435, [436]), (437, [438]), (439, [658]), (440, [441]), (444, [445]), (452, [454]),
  (453, [454]), (455, [457]), (456, [457]), (458, [460]), (459, [460]), (461, [462]),
  (463, [464]), (465, [466]), (467, [468]), (469, [470]), (471, [472]), (473, [474]),
  (475, [476]), (478, [479]), (480, [481]), (482, [483]), (484, [485]), (486, [487]),
  (488, [489]), (490, [491]), (492, [493]), (494, [495]), (497, [499]), (498, [499]),
  (500, [501]), (502, [405]), (503, [447]), (504, [505]), (506, [507]), (508, [509]),
  (510, [511]), (512, [513]), (514, [515]), (516, [517]), (518, [519]), (520, [521]),
  (522, [523]), (524, [525]), (526, [527]), (528, [529]), (530, [531]), (532, [533]),
  (534, [535]), (536, [537]), (538, [539]), (540, [541]), (542, [543]), (544, [414]),
  (546, [547]), (548, [549]), (550, [551]), (552, [553]), (554, [555]), (556, [557]),
  (558, [559]), (560, [561]), (562, [563]), (570, [11365]), (571, [572]), (573, [410]),
  (574, [11366]), (577, [578]), (579, [384]), (580, [649]), (581, [652]), (582, [583]),
  (584, [585]), (586, [587]), (588, [589]), (590, [591]), (880, [881]), (882, [883]),
  (886, [887]), (895, [1011]), (902, [940]), (904, [941]), (905, [942]), (906, [943]),
  (908, [972]), (910, [973]), (911, [974]), (913, [945]), (914, [946]), (915, [947]),
  (916, [948]), (917, [949]), (918, [950]), (919, [951]), (920, [952]), (921, [953]),
  (922, [954]), (923, [955]), (924, [956]), (925, [957]), (926, [958]), (927, [959]),
  (928, [960]), (929, [961]), (931, [963]), (932, [964]), (933, [965]), (934, [966]),
  (935, [967]), (936, [968]), (937, [969]), (938, [970]), (939, [971]), (975, [983]),
  (984, [985]), (986, [987]), (988, [989]), (990, [991]), (992, [993]), (994, [995]),
  (996, [997]), (998, [999]), (1000, [1001]), (1002, [1003]), (1004, [1005]), (1006, [1007]),
  (1012, [952]), (1015, [1016]), (1017, [1010]), (1018, [1019]), (1021, [891]), (1022, [892]),
  (1023, [893]), (1024, [1104]), (1025, [1105]), (1026, [1106]), (1027, [1107]), (1028, [1108]),
  (1029, [1109]), (1030, [1110]), (1031, [1111]), (1032, [1112]), (1033, [1113]), (1034, [1114]),
  (1035, [1115]), (1036, [1116]), (1037, [1117]), (1038, [1118]), (1039, [1119]), (1040, [1072]),
  (1041, [1073]), (1042, [1074]), (1043, [1075]), (1044, [1076]), (1045, [1077]), (1046, [1078]),
  (1047, [1079]), (1048, [1080]), (1049, [1081]), (1050, [1082]), (1051, [1083]), (1052, [1084]),
  (1053, [1085]), (1054, [1086]), (1055, [1087]), (1056, [1088]), (1057, [1089]), (1058, [1090]),
  (1059, [1091]), (1060, [1092]), (1061, [1093]), (1062, [1094]), (1063, [1095]), (1064, [1096]),
  (1065, [1097]), (1066, [1098]), (1067, [1099]), (1068, [1100]), (1069, [1101]), (1070, [1102]),
  (1071, [1103]), (1120, [1121]), (1122, [1123]), (1124, [1125]), (1126, [1127]), (1128, [1129]),
  (1130, [1131]), (1132, [1133]), (1134, [1135]), (1136, [1137]), (1138, [1139]), (1140, [1141]),
  (1142, [1143]), (1144, [1145]), (1146, [1147]), (1148, [1149]), (1150, [1151]), (1152, [1153]),
  (1162, [1163]), (1164, [1165]), (1166, [1167]), (1168, [1169]), (1170, [1171]), (1172, [1173]),
  (1174, [1175]), (1176, [1177]), (1178, [1179]), (1180, [1181]), (1182, [1183]), (1184, [1185]),
  (1186, [1187]), (1188, [1189]), (1190, [1191]), (1192, [1193]), (1194, [1195]), (1196, [1197]),
  (1198, [1199]), (1200, [1201]), (1202, [1203]), (1204, [1205]), (1206, [1207]), (1208, [1209]),
  (1210, [1211]), (1212, [1213]), (1214, [1215]), (1216, [1231]), (1217, [1218]), (1219, [1220]),
  (1221, [1222]), (1223, [1224]), (1225, [1226]), (1227, [1228]), (1229, [1230]), (1232, [1233]),
  (1234, [1235]), (1236, [1237]), (1238, [1239]), (1240, [1241]), (1242, [1243]), (1244, [1245]),
  (1246, [1247]), (1248, [1249]), (1250, [1251]), (1252, [1253]), (1254, [1255]), (1256, [1257]),
  (1258, [1259]), (1260, [1261]), (1262, [1263]), (1264, [1265]), (1266, [1267]), (1268, [1269]),
  (1270, [1271]), (1272, [1273]), (1274, [1275]), (1276, [1277]), (1278, [1279]), (1280, [1281]),
  (1282, [1283]), (1284, [1285]), (1286, [1287]), (1288, [1289]), (1290, [1291]), (1292, [1293]),
  (1294, [1295]), (1296, [1297]), (1298, [1299]), (1300, [1301]), (1302, [1303]), (1304, [1305]),
  (1306, [1307]), (1308, [1309]), (1310, [1311]), (1312, [1313]), (1314, [1315]), (1316, [1317]),
  (1318, [1319]), (1320, [1321]), (1322, [1323]), (1324, [1325]), (1326, [1327]), (1329, [1377]),
  (1330, [1378]), (1331, [1379]), (1332, [1380]), (1333, [1381]), (1334, [1382]), (1335, [1383]),
  (1336, [1384]), (1337, [1385]), (1338, [1386]), (1339, [1387]), (1340, [1388]), (1341, [1389]),
  (1342, [1390]), (1343, [1391]), (1344, [1392]), (1345, [1393]), (1346, [1394]), (1347, [1395]),
  (1348, [1396]), (1349, [1397]), (1350, [1398]), (1351, [1399]), (1352, [1400]), (1353, [1401]),
  (1354, [1402]), (1355, [1403]), (1356, [1404]), (1357, [1405]), (1358, [1406]), (1359, [1407]),
  (1360, [1408]), (1361, [1409]), (1362, [1410]), (1363, [1411]), (1364, [1412]), (1365, [1413]),
  (1366, [1414]), (4256, [11520]), (4257, [11521]), (4258, [11522]), (4259, [11523]), (4260, [11524]),
  (4261, [11525]), (4262, [11526]), (4263, [11527]), (4264, [11528]), (4265, [11529]), (4266, [11530]),
  (4267, [11531]), (4268, [11532]), (4269, [11533]), (4270, [11534]), (4271, [11535]), (4272, [11536]),
  (4273, [11537]), (4274, [11538]), (4275, [11539]), (4276, [11540]), (4277, [11541]), (4278, [11542]),
  (4279, [11543]), (4280, [11544]), (4281, [11545]), (4282, [11546]), (4283, [11547]), (4284, [11548]),
  (4285, [11549]), (4286, [11550]), (4287, [11551]), (4288, [11552]), (4289, [11553]), (4290, [11554]),
  (4291, [11555]), (4292, [11556]), (4293, [11557]), (4295, [11559]), (4301, [11565]), (5024, [43888]),
  (5025, [43889]), (5026, [43890]), (5027, [43891]), (5028, [43892]), (5029, [43893]), (5030, [43894]),
  (5031, [43895]), (5032, [43896]), (5033, [43897]), (5034, [43898]), (5035, [43899]), (5036, [43900]),
  (5037, [43901]), (5038, [43902]), (5039, [43903]), (5040, [43904]), (5041, [43905]), (5042, [43906]),
  (5043, [43907]), (5044, [43908]), (5045, [43909]), (5046, [43910]), (5047, [43911]), (5048, [43912]),
  (5049, [43913]), (5050, [43914]), (5051, [43915]), (5052, [43916]), (5053, [43917]), (5054, [43918]),
  (5055, [43919]), (5056, [43920]), (5057, [43921]), (5058, [43922]), (5059, [43923]), (5060, [43924]),
  (5061, [43925]), (5062, [43926]), (5063, [43927]), (5064, [43928]), (5065, [43929]), (5066, [43930]),
  (5067, [43931]), (5068, [43932]), (5069, [43933]), (5070, [43934]), (5071, [43935]), (5072, [43936]),
  (5073, [43937]), (5074, [43938]), (5075, [43939]), (5076, [43940]), (5077, [43941]), (5078, [43942]),
  (5079, [43943]), (5080, [43944]), (5081, [43945]), (5082, [43946]), (5083, [43947]), (5084, [43948]),
  (5085, [43949]), (5086, [43950]), (5087, [43951]), (5088, [43952]), (5089, [43953]), (5090, [43954]),
  (5091, [43955]), (5092, [43956]), (5093, [43957]), (5094, [43958]), (5095, [43959]), (5096, [43960]),
  (5097, [43961]), (5098, [43962]), (5099, [43963]), (5100, [43964]), (5101, [43965]), (5102, [43966]),
  (5103, [43967]), (5104, [5112]), (5105, [5113]), (5106, [5114]), (5107, [5115]), (5108, [5116]),
  (5109, [5117]), (7312, [4304]), (7313, [4305]), (7314, [4306]), (7315, [4307]), (7316, [4308]),
  (7317, [4309]), (7318, [4310]), (7319, [4311]), (7320, [4312]), (7321, [4313]), (7322, [4314]),
  (7323, [4315]), (7324, [4316]), (7325, [4317]), (7326, [4318]), (7327, [4319]), (7328, [4320]),
  (7329, [4321]), (7330, [4322]), (7331, [4323]), (7332, [4324]), (7333, [4325]), (7334, [4326]),
  (7335, [4327]), (7336, [4328]), (7337, [4329]), (7338, [4330]), (7339, [4331]), (7340, [4332]),
  (7341, [4333]), (7342, [4334]), (7343, [4335]), (7344, [4336]), (7345, [4337]), (7346, [4338]),
  (7347, [4339]), (7348, [4340]), (7349, [4341]), (7350, [4342]), (7351, [4343]), (7352, [4344]),
  (7353, [4345]), (7354, [4346]), (7357, [4349]), (7358, [4350]), (7359, [4351]), (7680, [7681]),
  (7682, [7683]), (7684, [7685]), (7686, [7687]), (7688, [7689]), (7690, [7691]), (7692, [7693]),
  (7694, [7695]), (7696, [7697]), (7698, [7699]), (7700, [7701]), (7702, [7703]), (7704, [7705]),
  (7706, [7707]), (7708, [7709]), (7710, [7711]), (7712, [7713]), (7714, [7715]), (7716, [7717]),
  (7718, [7719]), (7720, [7721]), (7722, [7723]), (7724, [7725]), (7726, [7727]), (7728, [7729]),
  (7730, [7731]), (7732, [7733]), (7734, [7735]), (7736, [7737]), (7738, [7739]), (7740, [7741]),
  (7742, [7743]), (7744, [7745]), (7746, [7747]), (7748, [7749]), (7750, [7751]), (7752, [7753]),
  (7754, [7755]), (7756, [7757]), (7758, [7759]), (7760, [7761]), (7762, [7763]), (7764, [7765]),
  (7766, [7767]), (7768, [7769]), (7770, [7771]), (7772, [7773]), (7774, [7775]), (7776, [7777]),
  (7778, [7779]), (7780, [7781]), (7782, [7783]), (7784, [7785]), (7786, [7787]), (7788, [7789]),
  (7790, [7791]), (7792, [7793]), (7794, [7795]), (7796, [7797]), (7798, [7799]), (7800, [7801]),
  (7802, [7803]), (7804, [7805]), (7806, [7807]), (7808, [7809]), (7810, [7811]), (7812, [7813]),
  (7814, [7815]), (7816, [7817]), (7818, [7819]), (7820, [7821]), (7822, [7823]), (7824, [7825]),
  (7826, [7827]), (7828, [7829]), (7838, [223]), (7840, [7841]), (7842, [7843]), (7844, [7845]),
  (7846, [7847]), (7848, [7849]), (7850, [7851]), (7852, [7853]), (7854, [7855]), (7856, [7857]),
  (7858, [7859]), (7860, [7861]), (7862, [7863]), (7864, [7865]), (7866, [7867]), (7868, [7869]),
  (7870, [7871]), (7872, [7873]), (7874, [7875]), (7876, [7877]), (7878, [7879]), (7880, [7881]),
  (7882, [7883]), (7884, [7885]), (7886, [7887]), (7888, [7889]), (7890, [7891]), (7892, [7893]),
  (7894, [7895]), (7896, [7897]), (7898, [7899]), (7900, [7901]), (7902, [7903]), (7904, [7905]),
  (7906, [7907]), (7908, [7909]), (7910, [7911]), (7912, [7913]), (7914, [7915]), (7916, [7917]),
  (7918, [7919]), (7920, [7921]), (7922, [7923]), (7924, [7925]), (7926, [7927]), (7928, [7929]),
  (7930, [7931]), (7932, [7933]), (7934, [7935]), (7944, [7936]), (7945, [7937]), (7946, [7938]),
  (7947, [7939]), (7948, [7940]), (7949, [7941]), (7950, [7942]), (7951, [7943]), (7960, [7952]),
  (7961, [7953]), (7962, [7954]), (7963, [7955]), (7964, [7956]), (7965, [7957]), (7976, [7968]),
  (7977, [7969]), (7978, [7970]), (7979, [7971]), (7980, [7972]), (7981, [7973]), (7982, [7974]),
  (7983, [7975]), (7992, [7984]), (7993, [7985]), (7994, [7986]), (7995, [7987]), (7996, [7988]),
  (7997, [7989]), (7998, [7990]), (7999, [7991]), (8008, [8000]), (8009, [8001]), (8010, [8002]),
  (8011, [8003]), (8012, [8004]), (8013, [8005]), (8025, [8017]), (8027, [8019]), (8029, [8021]),
  (8031, [8023]), (8040, [8032]), (8041, [8033]), (8042, [8034]), (8043, [8035]), (8044, [8036]),
  (8045, [8037]), (8046, [8038]), (8047, [8039]), (8072, [8064]), (8073, [8065]), (8074, [8066]),
  (8075, [8067]), (8076, [8068]), (8077, [8069]), (8078, [8070]), (8079, [8071]), (8088, [8080]),
  (8089, [8081]), (8090, [8082]), (8091, [8083]), (8092, [8084]), (8093, [8085]), (8094, [8086]),
  (8095, [8087]), (8104, [8096]), (8105, [8097]), (8106, [8098]), (8107, [8099]), (8108, [8100]),
  (8109, [8101]), (8110, [8102]), (8111, [8103]), (8120, [8112]), (8121, [8113]), (8122, [8048]),
  (8123, [8049]), (8124, [8115]), (8136, [8050]), (8137, [8051]), (8138, [8052]), (8139, [8053]),
  (8140, [8131]), (8152, [8144]), (8153, [8145]), (8154, [8054]), (8155, [8055]), (8168, [8160]),
  (8169, [8161]), (8170, [8058]), (8171, [8059]), (8172, [8165]), (8184, [8056]), (8185, [8057]),
  (8186, [8060]), (8187, [8061]), (8188, [8179]), (8486, [969]), (8490, [107]), (8491, [229]),
  (8498, [8526]), (8544, [8560]), (8545, [8561]), (8546, [8562]), (8547, [8563]), (8548, [8564]),
  (8549, [8565]), (8550, [8566]), (8551, [8567]), (8552, [8568]), (8553, [8569]), (8554, [8570]),
  (8555, [8571]), (8556, [8572]), (8557, [8573]), (8558, [8574]), (8559, [8575]), (8579, [8580]),
  (9398, [9424]), (9399, [9425]), (9400, [9426]), (9401, [9427]), (9402, [9428]), (9403, [9429]),
  (9404, [9430]), (9405, [9431]), (9406, [9432]), (9407, [9433]), (9408, [9434]), (9409, [9435]),
  (9410, [9436]), (9411, [9437]), (9412, [9438]), (9413, [9439]), (9414, [9440]), (9415, [9441]),
  (9416, [9442]), (9417, [9443]), (9418, [9444]), (9419, [9445]), (9420, [9446]), (9421, [9447]),
  (9422, [9448]), (9423, [9449]), (11264, [11312]), (11265, [11313]), (11266, [11314]), (11267, [11315]),
  (11268, [11316]), (11269, [11317]), (11270, [11318]), (11271, [11319]), (11272, [11320]), (11273, [11321]),
  (11274, [11322]), (11275, [11323]), (11276, [11324]), (11277, [11325]), (11278, [11326]), (11279, [11327]),
  (11280, [11328]), (11281, [11329]), (11282, [11330]), (11283, [11331]), (11284, [11332]), (11285, [11333]),
  (11286, [11334]), (11287, [11335]), (11288, [11336]), (11289, [11337]), (11290, [11338]), (11291, [11339]),
  (11292, [11340]), (11293, [11341]), (11294, [11342]), (11295, [11343]), (11296, [11344]), (11297, [11345]),
  (11298, [11346]), (11299, [11347]), (11300, [11348]), (11301, [11349]), (11302, [11350]), (11303, [11351]),
  (11304, [11352]), (11305, [11353]), (11306, [11354]), (11307, [11355]), (11308, [11356]), (11309, [11357]),
  (11310, [11358]), (11311, [11359]), (11360, [11361]), (11362, [619]), (11363, [7549]), (11364, [637]),
  (11367, [11368]), (11369, [11370]), (11371, [11372]), (11373, [593]), (11374, [625]), (11375, [592]),
  (11376, [594]), (11378, [11379]), (11381, [11382]), (11390, [575]), (11391, [576]), (11392, [11393]),
  (11394, [11395]), (11396, [11397]), (11398, [11399]), (11400, [11401]), (11402, [11403]), (11404, [11405]),
  (11406, [11407]), (11408, [11409]), (11410, [11411]), (11412, [11413]), (11414, [11415]), (11416, [11417]),
  (11418, [11419]), (11420, [11421]), (11422, [11423]), (11424, [11425]), (11426, [11427]), (11428, [11429]),
  (11430, [11431]), (11432, [11433]), (11434, [11435]), (11436, [11437]), (11438, [11439]), (11440, [11441]),
  (11442, [11443]), (11444, [11445]), (11446, [11447]), (11448, [11449]), (11450, [11451]), (11452, [11453]),
  (11454, [11455]), (11456, [11457]), (11458, [11459]), (11460, [11461]), (11462, [11463]), (11464, [11465]),
  (11466, [11467]), (11468, [11469]), (11470, [11471]), (11472, [11473]), (11474, [11475]), (11476, [11477]),
  (11478, [11479]), (11480, [11481]), (11482, [11483]), (11484, [11485]), (11486, [11487]), (11488, [11489]),
  (11490, [11491]), (11499, [11500]), (11501, [11502]), (11506, [11507]), (42560, [42561]), (42562, [42563]),
  (42564, [42565]), (42566, [42567]), (42568, [42569]), (42570, [42571]), (42572, [42573]), (42574, [42575]),
  (42576, [42577]), (42578, [42579]), (42580, [42581]), (42582, [42583]), (42584, [42585]), (42586, [42587]),
  (42588, [42589]), (42590, [42591]), (42592, [42593]), (42594, [42595]), (42596, [42597]), (42598, [42599]),
  (42600, [42601]), (42602, [42603]), (42604, [42605]), (42624, [42625]), (42626, [42627]), (42628, [42629]),
  (42630, [42631]), (42632, [42633]), (42634, [42635]), (42636, [42637]), (42638, [42639]), (42640, [42641]),
  (42642, [42643]), (42644, [42645]), (42646, [42647]), (42648, [42649]), (42650, [42651]), (42786, [42787]),
  (42788, [42789]), (42790, [42791]), (42792, [42793]), (42794, [42795]), (42796, [42797]), (42798, [42799]),
  (42802, [42803]), (42804, [42805]), (42806, [42807]), (42808, [42809]), (42810, [42811]), (42812, [42813]),
  (42814, [42815]), (42816, [42817]), (42818, [42819]), (42820, [42821]), (42822, [42823]), (42824, [42825]),
  (42826, [42827]), (42828, [42829]), (42830, [42831]), (42832, [42833]), (42834, [42835]), (42836, [42837]),
  (42838, [42839]), (42840, [42841]), (42842, [42843]), (42844, [42845]), (42846, [42847]), (42848, [42849]),
  (42850, [42851]), (42852, [42853]), (42854, [42855]), (42856, [42857]), (42858, [42859]), (42860, [42861]),
  (42862, [42863]), (42873, [42874]), (42875, [42876]), (42877, [7545]), (42878, [42879]), (42880, [42881]),
  (42882, [42883]), (42884, [42885]), (42886, [42887]), (42891, [42892]), (42893, [613]), (42896, [42897]),
  (42898, [42899]), (42902, [42903]), (42904, [42905]), (42906, [42907]), (42908, [42909]), (42910, [42911]),
  (42912, [42913]), (42914, [42915]), (42916, [42917]), (42918, [42919]), (42920, [42921]), (42922, [614]),
  (42923, [604]), (42924, [609]), (42925, [620]), (42926, [618]), (42928, [670]), (42929, [647]),
  (42930, [669]), (42931, [43859]), (42932, [42933]), (42934, [42935]), (42936, [42937]), (42938, [42939]),
  (42940, [42941]), (42942, [42943]), (42944, [42945]), (42946, [42947]), (42948, [42900]), (42949, [642]),
  (42950, [7566]), (42951, [42952]), (42953, [42954]), (42960, [42961]), (42966, [42967]), (42968, [42969]),
  (42997, [42998]), (65313, [65345]), (65314, [65346]), (65315, [65347]), (65316, [65348]), (65317, [65349]),
  (65318, [65350]), (65319, [65351]), (65320, [65352]), (65321, [65353]), (65322, [65354]), (65323, [65355]),
  (65324, [65356]), (65325, [65357]), (65326, [65358]), (65327, [65359]), (65328, [65360]), (65329, [65361]),
  (65330, [65362]), (65331, [65363]), (65332, [65364]), (65333, [65365]), (65334, [65366]), (65335, [65367]),
  (65336, [65368]), (65337, [65369]), (65338, [65370]), (66560, [66600]), (66561, [66601]), (66562, [66602]),
  (66563, [66603]), (66564, [66604]), (66565, [66605]), (66566, [66606]), (66567, [66607]), (66568, [66608]),
  (66569, [66609]), (66570, [66610]), (66571, [66611]), (66572, [66612]), (66573, [66613]), (66574, [66614]),
  (66575, [66615]), (66576, [66616]), (66577, [66617]), (66578, [66618]), (66579, [66619]), (66580, [66620]),
  (66581, [66621]), (66582, [66622]), (66583, [66623]), (66584, [66624]), (66585, [66625]), (66586, [66626]),
  (66587, [66627]), (66588, [66628]), (66589, [66629]), (66590, [66630]), (66591, [66631]), (66592, [66632]),
  (66593, [66633]), (66594, [66634]), (66595, [66635]), (66596, [66636]), (66597, [66637]), (66598, [66638]),
  (66599, [66639]), (66736, [66776]), (66737, [66777]), (66738, [66778]), (66739, [66779]), (66740, [66780]),
  (66741, [66781]), (66742, [66782]), (66743, [66783]), (66744, [66784]), (66745, [66785]), (66746, [66786]),
  (66747, [66787]), (66748, [66788]), (66749, [66789]), (66750, [66790]), (66751, [66791]), (66752, [66792]),
  (66753, [66793]), (66754, [66794]), (66755, [66795]), (66756, [66796]), (66757, [66797]), (66758, [66798]),
  (66759, [66799]), (66760, [66800]), (66761, [66801]), (66762, [66802]), (66763, [66803]), (66764, [66804]),
  (66765, [66805]), (66766, [66806]), (66767, [66807]), (66768, [66808]), (66769, [66809]), (66770, [66810]),
  (66771, [66811]), (66928, [66967]), (66929, [66968]), (66930, [66969]), (66931, [66970]), (66932, [66971]),
  (66933, [66972]), (66934, [66973]), (66935, [66974]), (66936, [66975]), (66937, [66976]), (66938, [66977]),
  (66940, [66979]), (66941, [66980]), (66942, [66981]), (66943, [66982]), (66944, [66983]), (66945, [66984]),
  (66946, [66985]), (66947, [66986]), (66948, [66987]), (66949, [66988]), (66950, [66989]), (66951, [66990]),
  (66952, [66991]), (66953, [66992]), (66954, [66993]), (66956, [66995]), (66957, [66996]), (66958, [66997]),
  (66959, [66998]), (66960, [66999]), (66961, [67000]), (66962, [67001]), (66964, [67003]), (66965, [67004]),
  (68736, [68800]), (68737, [68801]), (68738, [68802]), (68739, [68803]), (68740, [68804]), (68741, [68805]),
  (68742, [68806]), (68743, [68807]), (68744, [68808]), (68745, [68809]), (68746, [68810]), (68747, [68811]),
  (68748, [68812]), (68749, [68813]), (68750, [68814]), (68751, [68815]), (68752, [68816]), (68753, [68817]),
  (68754, [68818]), (68755, [68819]), (68756, [68820]), (68757, [68821]), (68758, [68822]), (68759, [68823]),
  (68760, [68824]), (68761, [68825]), (68762, [68826]), (68763, [68827]), (68764, [68828]), (68765, [68829]),
  (68766, [68830]), (68767, [68831]), (68768, [68832]), (68769, [68833]), (68770, [68834]), (68771, [68835]),
  (68772, [68836]), (68773, [68837]), (68774, [68838]), (68775, [68839]), (68776, [68840]), (68777, [68841]),
  (68778, [68842]), (68779, [68843]), (68780, [68844]), (68781, [68845]), (68782, [68846]), (68783, [68847]),
  (68784, [68848]), (68785, [68849]), (68786, [68850]), (71840, [71872]), (71841, [71873]), (71842, [71874]),
  (71843, [71875]), (71844, [71876]), (71845, [71877]), (71846, [71878]), (71847, [71879]), (71848, [71880]),
  (71849, [71881]), (71850, [71882]), (71851, [71883]), (71852, [71884]), (71853, [71885]), (71854, [71886]),
  (71855, [71887]), (71856, [71888]), (71857, [71889]), (71858, [71890]), (71859, [71891]), (71860, [71892]),
  (71861, [71893]), (71862, [71894]), (71863, [71895]), (71864, [71896]), (71865, [71897]), (71866, [71898]),
  (71867, [71899]), (71868, [71900]), (71869, [71901]), (71870, [71902]), (71871, [71903]), (93760, [93792]),
  (93761, [93793]), (93762, [93794]), (93763, [93795]), (93764, [93796]), (93765, [93797]), (93766, [93798]),
  (93767, [93799]), (93768, [93800]), (93769, [93801]), (93770, [93802]), (93771, [93803]), (93772, [93804]),
  (93773, [93805]), (93774, [93806]), (93775, [93807]), (93776, [93808]), (93777, [93809]), (93778, [93810]),
  (93779, [93811]), (93780, [93812]), (93781, [93813]), (93782, [93814]), (93783, [93815]), (93784, [93816]),
  (93785, [93817]), (93786, [93818]), (93787, [93819]), (93788, [93820]), (93789, [93821]), (93790, [93822]),
  (93791, [93823]), (125184, [125218]), (125185, [125219]), (125186, [125220]), (125187, [125221]), (125188, [125222]),
  (125189, [125223]), (125190, [125224]), (125191, [125225]), (125192, [125226]), (125193, [125227]), (125194, [125228]),
  (125195, [125229]), (125196, [125230]), (125197, [125231]), (125198, [125232]), (125199, [125233]), (125200, [125234]),
  (125201, [125235]), (125202, [125236]), (125203, [125237]), (125204, [125238]), (125205, [125239]), (125206, [125240]),
  (125207, [125241]), (125208, [125242]), (125209, [125243]), (125210, [125244]), (125211, [125245]), (125212, [125246]),
  (125213, [125247]), (125214, [125248]), (125215, [125249]), (125216, [125250]), (125217, [125251])]

/-- Lookup in `pyLowerTable`.  The table is sorted by code point, so the
scan can stop at the first entry past `n`; on a sorted table this returns
exactly the association of `n` when present and `none` otherwise. -/
def pyLowerFind (n : Nat) : List (Nat × List Nat) → Option (List Nat)
  | [] => none
  | (k, l) :: rest => if n < k then none else if n = k then some l else pyLowerFind n rest

/-- `path[0].lower()`: CPython lowercases the one-character string via the
full Unicode lowercase mapping, which may yield more than one character
(`"İ".lower()` has two), hence the list-of-characters result. -/
def pyLower (c : Char) : List Char :=
  match pyLowerFind c.toNat pyLowerTable with
  | some l => l.map Char.ofNat
  | none => [c]

/-- `WslExecCommand.wsl_path`.  `path.startswith("\\\\")` holds exactly when
the first two characters exist and are backslashes, i.e. `take 2` is two
backslashes; `path[1:3] == ":\\"` holds exactly when characters 1 and 2 exist
and are `:` and `\` (a shorter slice never equals the two-character pattern).
`path[0]` is guarded by the second condition, which forces at least three
characters, so the `headD` default is never used.  `path[0].lower()` is
`pyLower`, the full Unicode lowercase mapping of CPython's `str.lower`,
spliced in by `"".join`. -/
def wsl_path (path : String) : String :=
  let cs := path.data
  let p :=
    if cs.take 2 = ['\\', '\\'] then
      uncSub cs
    else if (cs.drop 1).take 2 = [':', '\\'] then
      '/' :: 'm' :: 'n' :: 't' :: '/' :: (pyLower (cs.headD ' ') ++ cs.drop 2)
    else
      cs
  ⟨slashesL p⟩

/-! ## `wsl_env`: environment packaging

Source (`src/wsl_exec.py`, lines 212–216):

```
env["WSLENV"] = ":".join(env.keys())
for key in list(env):
    if key[-2] == "/" and key[-1] in ("l", "p", "u", "w"):
        env[key[:-2]] = env.pop(key)
return env
```
-/

/-- The tuple `("l", "p", "u", "w")` of conversion flags. -/
def flagChars : List Char := ['l', 'p', 'u', 'w']

/-- `key[-2] == "/" and key[-1] in ("l", "p", "u", "w")` as CPython evaluates
it: `key[-2]` raises `IndexError` when the key has fewer than two characters
(modelled as `.error ()`); otherwise the test is a boolean. -/
def flagCheck (key : String) : Except Unit Bool :=
  match key.data.reverse with
  | last :: penult :: _ => .ok (penult = '/' && flagChars.contains last)
  | _ => .error ()

/-- The boolean value of the flag test on keys of length at least two. -/
def isFlagged (key : String) : Bool :=
  match key.data.reverse with
  | last :: penult :: _ => penult = '/' && flagChars.contains last
  | _ => false

/-- `key[:-2]`: the key with the two-character flag suffix removed. -/
def stripFlag (key : String) : String :=
  ⟨key.data.take (key.data.length - 2)⟩

/-- The `for key in list(env)` loop of `wsl_env`: the first argument is the
key snapshot taken before the loop starts; flagged keys are popped and their
value re-stored under the stripped name (`env[key[:-2]] = env.pop(key)`).
A failed `pop` would be a `KeyError`, also modelled as `.error ()`. -/
def wslEnvLoop : List String → List (String × String) → Except Unit (List (String × String))
  | [], env => .ok env
  | key :: ks, env =>
    match flagCheck key with
    | .error () => .error ()
    | .ok true =>
      match dlookup env key with
      | some v => wslEnvLoop ks (dinsert (dpop env key) (stripFlag key) v)
      | none => .error ()
    | .ok false => wslEnvLoop ks env

/-- `WslExecCommand.wsl_env`.  The manifest value `":".join(env.keys())` is
computed from the original keys before `WSLENV` is assigned. -/
def wsl_env (env : List (String × String)) : Except Unit (List (String × String)) :=
  let env1 := dinsert env "WSLENV" (String.intercalate ":" (dkeys env))
  wslEnvLoop (dkeys env1) env1

/-! ## `wsl_cmd`: command assembly

Source (`src/wsl_exec.py`, lines 192–195):

```
wsl = ["wsl"]
if cwd:
    wsl += ["cd", self.wsl_path(cwd), ";"]
return wsl + cmd
```
-/

/-- `WslExecCommand.wsl_cmd`.  `if cwd:` is Python truthiness: any non-empty
string. -/
def wsl_cmd (cmd : List String) (cwd : String) : List String :=
  (if cwd = "" then ["wsl"] else ["wsl", "cd", wsl_path cwd, ";"]) ++ cmd

/-! ## Lemmas about the ordered-dictionary model -/

@[simp] theorem dkeys_nil : dkeys ([] : List (String × α)) = [] := rfl

@[simp] theorem dkeys_cons (kv : String × α) (d : List (String × α)) :
    dkeys (kv :: d) = kv.1 :: dkeys d := rfl

@[simp] theorem dkeys_append (d1 d2 : List (String × α)) :
    dkeys (d1 ++ d2) = dkeys d1 ++ dkeys d2 := by
  simp [dkeys]

@[simp] theorem dlookup_nil (k : String) : dlookup ([] : List (String × α)) k = none := rfl

@[simp] theorem dlookup_cons (kv : String × α) (d : List (String × α)) (k : String) :
    dlookup (kv :: d) k = if kv.1 = k then some kv.2 else dlookup d k := rfl

@[simp] theorem dupdate_nil (k : String) (v : α) : dupdate [] k v = [] := rfl

@[simp] theorem dupdate_cons (kv : String × α) (d : List (String × α)) (k : String) (v : α) :
    dupdate (kv :: d) k v = (if kv.1 = k then (k, v) else kv) :: dupdate d k v := rfl

@[simp] theorem dpop_nil (k : String) : dpop ([] : List (String × α)) k = [] := rfl

@[simp] theorem dpop_cons (kv : String × α) (d : List (String × α)) (k : String) :
    dpop (kv :: d) k = if kv.1 = k then dpop d k else kv :: dpop d k := by
  by_cases hk : kv.1 = k <;> simp [dpop, List.filter, hk]

theorem mem_dkeys_of_dlookup {d : List (String × α)} {k : String} {v : α}
    (h : dlookup d k = some v) : k ∈ dkeys d := by
  induction d with
  | nil => simp at h
  | cons kv rest ih =>
    rw [dlookup_cons] at h
    rw [dkeys_cons, List.mem_cons]
    by_cases hk : kv.1 = k
    · exact Or.inl hk.symm
    · rw [if_neg hk] at h
      exact Or.inr (ih h)

theorem dlookup_eq_some_of_mem {d : List (String × α)} {k : String}
    (h : k ∈ dkeys d) : ∃ v, dlookup d k = some v := by
  induction d with
  | nil => simp at h
  | cons kv rest ih =>
    by_cases hk : kv.1 = k
    · exact ⟨kv.2, by rw [dlookup_cons, if_pos hk]⟩
    · rw [dkeys_cons, List.mem_cons] at h
      rcases h with h | h
      · exact absurd h.symm hk
      · obtain ⟨v, hv⟩ := ih h
        exact ⟨v, by rw [dlookup_cons, if_neg hk]; exact hv⟩

theorem dlookup_dupdate_self {d : List (String × α)} {k : String} (v : α)
    (h : k ∈ dkeys d) : dlookup (dupdate d k v) k = some v := by
  induction d with
  | nil => simp at h
  | cons kv rest ih =>
    by_cases hk : kv.1 = k
    · simp [hk]
    · rw [dkeys_cons, List.mem_cons] at h
      rcases h with h | h
      · exact absurd h.symm hk
      · simp [hk, ih h]

theorem dlookup_dupdate_ne {d : List (String × α)} {k j : String} (v : α)
    (h : j ≠ k) : dlookup (dupdate d k v) j = dlookup d j := by
  induction d with
  | nil => rfl
  | cons kv rest ih =>
    by_cases hk : kv.1 = k
    · have hkj : ¬ k = j := fun e => h e.symm
      simp [hk, hkj, ih]
    · simp [hk, ih]

theorem dlookup_append_right {d : List (String × α)} {k : String}
    (h : ¬ k ∈ dkeys d) (tail : List (String × α)) :
    dlookup (d ++ tail) k = dlookup tail k := by
  induction d with
  | nil => rfl
  | cons kv rest ih =>
    rw [dkeys_cons, List.mem_cons] at h
    push_neg at h
    rw [List.cons_append, dlookup_cons, if_neg (fun e => h.1 e.symm)]
    exact ih h.2

theorem dlookup_dinsert_self (d : List (String × α)) (k : String) (v : α) :
    dlookup (dinsert d k v) k = some v := by
  rw [dinsert]
  by_cases h : k ∈ dkeys d
  · rw [if_pos h]
    exact dlookup_dupdate_self v h
  · rw [if_neg h, dlookup_append_right h]
    simp

theorem dlookup_dinsert_ne (d : List (String × α)) {k j : String} (v : α)
    (h : j ≠ k) : dlookup (dinsert d k v) j = dlookup d j := by
  rw [dinsert]
  by_cases hm : k ∈ dkeys d
  · rw [if_pos hm]
    exact dlookup_dupdate_ne v h
  · rw [if_neg hm]
    induction d with
    | nil => simp [h, Ne.symm h]
    | cons kv rest ih =>
      by_cases hkj : kv.1 = j
      · simp [hkj]
      · have hm2 : ¬ k ∈ dkeys rest := by
          rw [dkeys_cons, List.mem_cons] at hm
          push_neg at hm
          exact hm.2
        simp only [List.cons_append, dlookup_cons, if_neg hkj]
        exact ih hm2

theorem dlookup_dpop_self (d : List (String × α)) (k : String) :
    dlookup (dpop d k) k = none := by
  induction d with
  | nil => rfl
  | cons kv rest ih =>
    by_cases hk : kv.1 = k
    · simpa [hk] using ih
    · simp [hk, ih]

theorem dlookup_dpop_ne (d : List (String × α)) {k j : String} (h : j ≠ k) :
    dlookup (dpop d k) j = dlookup d j := by
  induction d with
  | nil => rfl
  | cons kv rest ih =>
    by_cases hk : kv.1 = k
    · have hkj : ¬ kv.1 = j := fun e => h (e.symm.trans hk)
      simp [hk, hkj, ih, Ne.symm h]
    · simp [hk, ih]

theorem dkeys_dupdate (d : List (String × α)) (k : String) (v : α) :
    dkeys (dupdate d k v) = dkeys (d.map (fun kv => if kv.1 = k then (k, v) else kv)) := rfl

theorem dkeys_dupdate_eq {d : List (String × α)} (k : String) (v : α)
    (h : k ∈ dkeys d) : dkeys (dupdate d k v) = dkeys d := by
  induction d with
  | nil => rfl
  | cons kv rest ih =>
    rw [dkeys_cons, List.mem_cons] at h
    by_cases hk : kv.1 = k
    · rw [dupdate_cons, if_pos hk, dkeys_cons, dkeys_cons, hk]
      by_cases h2 : k ∈ dkeys rest
      · rw [ih h2]
      · have : dupdate rest k v = rest := by
          unfold dupdate
          have : ∀ kv2 ∈ rest, (fun kv3 => if kv3.1 = k then (k, v) else kv3) kv2 = kv2 := by
            intro kv2 hkv2
            have hne : ¬ kv2.1 = k := fun e => by
              apply h2
              rw [← e]
              exact List.mem_map_of_mem (fun kv => kv.1) hkv2
            simp [hne]
          rw [List.map_congr_left this]
          simp
        rw [this]
    · rcases h with h | h
      · exact absurd h.symm hk
      · rw [dupdate_cons, if_neg hk, dkeys_cons, dkeys_cons, ih h]

theorem mem_dkeys_dinsert {d : List (String × α)} {k j : String} {v : α} :
    j ∈ dkeys (dinsert d k v) ↔ j ∈ dkeys d ∨ j = k := by
  rw [dinsert]
  by_cases h : k ∈ dkeys d
  · rw [if_pos h, dkeys_dupdate_eq k v h]
    constructor
    · exact Or.inl
    · rintro (hj | rfl)
      · exact hj
      · exact h
  · rw [if_neg h, dkeys_append]
    simp [dkeys]

theorem mem_dkeys_dpop {d : List (String × α)} {k j : String} :
    j ∈ dkeys (dpop d k) ↔ j ∈ dkeys d ∧ j ≠ k := by
  induction d with
  | nil => simp
  | cons kv rest ih =>
    by_cases hk : kv.1 = k
    · rw [dpop_cons, if_pos hk, ih, dkeys_cons, List.mem_cons]
      constructor
      · rintro ⟨hm, hne⟩
        exact ⟨Or.inr hm, hne⟩
      · rintro ⟨hj | hj, hne⟩
        · exact absurd (hj.trans hk) hne
        · exact ⟨hj, hne⟩
    · rw [dpop_cons, if_neg hk, dkeys_cons, dkeys_cons, List.mem_cons, List.mem_cons, ih]
      constructor
      · rintro (hj | ⟨hm, hne⟩)
        · exact ⟨Or.inl hj, fun e => hk (by rw [← hj, e])⟩
        · exact ⟨Or.inr hm, hne⟩
      · rintro ⟨hj | hj, hne⟩
        · exact Or.inl hj
        · exact Or.inr ⟨hj, hne⟩

theorem nodup_dkeys_dinsert {d : List (String × α)} {k : String} {v : α}
    (h : (dkeys d).Nodup) : (dkeys (dinsert d k v)).Nodup := by
  rw [dinsert]
  by_cases hm : k ∈ dkeys d
  · rwa [if_pos hm, dkeys_dupdate_eq k v hm]
  · rw [if_neg hm, dkeys_append, List.nodup_append]
    refine ⟨h, List.nodup_singleton k, ?_⟩
    intro a ha hb
    simp [dkeys] at hb
    exact hm (hb ▸ ha)

/-! ## Lemmas about the flag test -/

theorem flagCheck_eq_ok {key : String} (h : 2 ≤ key.data.length) :
    flagCheck key = .ok (isFlagged key) := by
  have hlen : 2 ≤ key.data.reverse.length := by
    rwa [List.length_reverse]
  cases hr : key.data.reverse with
  | nil => rw [hr] at hlen; simp at hlen
  | cons a t =>
    cases t with
    | nil => rw [hr] at hlen; simp at hlen
    | cons b t2 => simp [flagCheck, isFlagged, hr]

theorem flagCheck_ok_eq {key : String} {b : Bool} (h : flagCheck key = .ok b) :
    b = isFlagged key := by
  cases hr : key.data.reverse with
  | nil => simp [flagCheck, hr] at h
  | cons a t =>
    cases t with
    | nil => simp [flagCheck, hr] at h
    | cons c t2 =>
      simp [flagCheck, hr] at h
      simp [isFlagged, hr, h]

theorem two_le_length_of_isFlagged {key : String} (h : isFlagged key = true) :
    2 ≤ key.data.length := by
  rw [← List.length_reverse]
  cases hr : key.data.reverse with
  | nil => simp [isFlagged, hr] at h
  | cons a t =>
    cases t with
    | nil => simp [isFlagged, hr] at h
    | cons c t2 => simp

theorem stripFlag_ne_self {key : String} (h : isFlagged key = true) :
    stripFlag key ≠ key := by
  intro e
  have hlen : (stripFlag key).data.length = key.data.length := by rw [e]
  have h2 : 2 ≤ key.data.length := two_le_length_of_isFlagged h
  rw [stripFlag] at hlen
  have hlen2 : (List.take (key.data.length - 2) key.data).length
      = key.data.length - 2 := by
    rw [List.length_take]
    omega
  rw [hlen2] at hlen
  omega

/-! ## Lemmas about the UNC substitution -/

theorem uncSubAux_no_occurrence :
    ∀ (fuel : Nat) (cs : List Char), ¬ List.IsInfix uncMarker cs →
      uncSubAux fuel cs = cs := by
  intro fuel
  induction fuel with
  | zero => intro cs _; rfl
  | succ n ih =>
    intro cs h
    cases cs with
    | nil => rfl
    | cons c rest =>
      cases hb : uncMarker.isPrefixOf (c :: rest) with
      | true =>
        exact absurd (List.IsPrefix.isInfix (List.isPrefixOf_iff_prefix.mp hb)) h
      | false =>
        simp only [uncSubAux, hb, Bool.false_eq_true, if_false, List.cons.injEq, true_and]
        exact ih rest (fun hinf => h (List.infix_cons hinf))

theorem isPrefixOf_append_self (l t : List Char) : l.isPrefixOf (l ++ t) = true :=
  List.isPrefixOf_iff_prefix.mpr (List.prefix_append l t)

theorem dropWhile_ne_backslash (l r : List Char) (h : ∀ c ∈ l, c ≠ '\\') :
    (l ++ '\\' :: r).dropWhile (fun ch => ch ≠ '\\') = '\\' :: r := by
  induction l with
  | nil => simp [List.dropWhile_cons]
  | cons a l ih =>
    have ha : a ≠ '\\' := h a (List.mem_cons_self a l)
    rw [List.cons_append, List.dropWhile_cons]
    simp only [ha, decide_True, decide_False, if_true, ne_eq, decide_not]
    simpa [ha] using ih (fun c hc => h c (List.mem_cons_of_mem a hc))

/-! ## Invariant lemmas about the `wsl_env` loop -/

theorem wslEnvLoop_ok :
    ∀ (ks : List String) (env : List (String × String)),
      (∀ k ∈ ks, 2 ≤ k.data.length) → ks.Nodup → (∀ k ∈ ks, k ∈ dkeys env) →
      ∃ d, wslEnvLoop ks env = .ok d := by
  intro ks
  induction ks with
  | nil => exact fun env _ _ _ => ⟨env, rfl⟩
  | cons key ks ih =>
    intro env hlen hnd hmem
    obtain ⟨hkey, hnd2⟩ := List.nodup_cons.mp hnd
    have hfc : flagCheck key = .ok (isFlagged key) :=
      flagCheck_eq_ok (hlen key (List.mem_cons_self key ks))
    by_cases hf : isFlagged key = true
    · obtain ⟨v, hv⟩ := dlookup_eq_some_of_mem (hmem key (List.mem_cons_self key ks))
      have hmem2 : ∀ k ∈ ks, k ∈ dkeys (dinsert (dpop env key) (stripFlag key) v) := by
        intro k hk
        rw [mem_dkeys_dinsert, mem_dkeys_dpop]
        exact Or.inl ⟨hmem k (List.mem_cons_of_mem key hk), fun e => hkey (e ▸ hk)⟩
      obtain ⟨d, hd⟩ :=
        ih _ (fun k hk => hlen k (List.mem_cons_of_mem key hk)) hnd2 hmem2
      exact ⟨d, by simp [wslEnvLoop, hfc, hf, hv, hd]⟩
    · obtain ⟨d, hd⟩ :=
        ih env (fun k hk => hlen k (List.mem_cons_of_mem key hk)) hnd2
          (fun k hk => hmem k (List.mem_cons_of_mem key hk))
      exact ⟨d, by simp [wslEnvLoop, hfc, hf, hd]⟩

theorem wslEnvLoop_preserve :
    ∀ (ks : List String) (env d : List (String × String)) (s : String),
      wslEnvLoop ks env = .ok d →
      (∀ j ∈ ks, isFlagged j = true → stripFlag j ≠ s) →
      (isFlagged s = true → s ∉ ks) →
      dlookup d s = dlookup env s := by
  intro ks
  induction ks with
  | nil =>
    intro env d s h _ _
    rw [wslEnvLoop] at h
    cases h
    rfl
  | cons key ks ih =>
    intro env d s h h1 h2
    cases hfc : flagCheck key with
    | error e => simp [wslEnvLoop, hfc] at h
    | ok b =>
      have hb : b = isFlagged key := flagCheck_ok_eq hfc
      cases b with
      | false =>
        simp only [wslEnvLoop, hfc] at h
        exact ih env d s h
          (fun j hj => h1 j (List.mem_cons_of_mem key hj))
          (fun hfs hm => h2 hfs (List.mem_cons_of_mem key hm))
      | true =>
        have hfkey : isFlagged key = true := hb.symm
        cases hv : dlookup env key with
        | none => simp [wslEnvLoop, hfc, hv] at h
        | some v =>
          simp only [wslEnvLoop, hfc, hv] at h
          have hrec := ih _ d s h
            (fun j hj => h1 j (List.mem_cons_of_mem key hj))
            (fun hfs hm => h2 hfs (List.mem_cons_of_mem key hm))
          rw [hrec]
          have hs1 : stripFlag key ≠ s := h1 key (List.mem_cons_self key ks) hfkey
          rw [dlookup_dinsert_ne _ v (Ne.symm hs1)]
          have hs2 : s ≠ key := by
            intro e
            exact h2 (e ▸ hfkey) (e ▸ List.mem_cons_self key ks)
          exact dlookup_dpop_ne env hs2

theorem wslEnvLoop_flag_key :
    ∀ (ks : List String) (env d : List (String × String)) (k v : String),
      wslEnvLoop ks env = .ok d → k ∈ ks → isFlagged k = true →
      dlookup env k = some v → ks.Nodup →
      (∀ j ∈ ks, isFlagged j = true → j ≠ k → stripFlag j ≠ stripFlag k) →
      (∀ j ∈ ks, isFlagged j = true → stripFlag j ≠ k) →
      (isFlagged (stripFlag k) = true → stripFlag k ∉ ks) →
      dlookup d (stripFlag k) = some v ∧ dlookup d k = none := by
  intro ks
  induction ks with
  | nil => intro env d k v _ hk; exact absurd hk (List.not_mem_nil k)
  | cons key ks ih =>
    intro env d k v h hk hf hv hnd h1 h2 h3
    obtain ⟨hkey_nin, hnd2⟩ := List.nodup_cons.mp hnd
    cases hfc : flagCheck key with
    | error e => simp [wslEnvLoop, hfc] at h
    | ok b =>
      have hb : b = isFlagged key := flagCheck_ok_eq hfc
      by_cases hkeyk : key = k
      · subst hkeyk
        rw [hf] at hb
        subst hb
        simp only [wslEnvLoop, hfc, hv] at h
        constructor
        · rw [wslEnvLoop_preserve ks _ d (stripFlag key) h
            (fun j hj hfj => h1 j (List.mem_cons_of_mem key hj) hfj
              (fun e => hkey_nin (e ▸ hj)))
            (fun hfs hm => (h3 hfs) (List.mem_cons_of_mem key hm))]
          exact dlookup_dinsert_self _ _ v
        · rw [wslEnvLoop_preserve ks _ d key h
            (fun j hj hfj => h2 j (List.mem_cons_of_mem key hj) hfj)
            (fun _ hm => hkey_nin hm)]
          rw [dlookup_dinsert_ne _ v (Ne.symm (stripFlag_ne_self hf))]
          exact dlookup_dpop_self env key
      · have hkks : k ∈ ks := by
          rcases List.mem_cons.mp hk with e | hm
          · exact absurd e.symm hkeyk
          · exact hm
        cases hbb : isFlagged key with
        | false =>
          rw [hbb] at hb
          subst hb
          simp only [wslEnvLoop, hfc] at h
          exact ih env d k v h hkks hf hv hnd2
            (fun j hj => h1 j (List.mem_cons_of_mem key hj))
            (fun j hj => h2 j (List.mem_cons_of_mem key hj))
            (fun hfs hm => (h3 hfs) (List.mem_cons_of_mem key hm))
        | true =>
          rw [hbb] at hb
          subst hb
          cases hvk : dlookup env key with
          | none => simp [wslEnvLoop, hfc, hvk] at h
          | some w =>
            simp only [wslEnvLoop, hfc, hvk] at h
            have hv2 : dlookup (dinsert (dpop env key) (stripFlag key) w) k = some v := by
              rw [dlookup_dinsert_ne _ w
                (Ne.symm (h2 key (List.mem_cons_self key ks) hbb))]
              rw [dlookup_dpop_ne env (fun e => hkeyk e.symm)]
              exact hv
            exact ih _ d k v h hkks hf hv2 hnd2
              (fun j hj => h1 j (List.mem_cons_of_mem key hj))
              (fun j hj => h2 j (List.mem_cons_of_mem key hj))
              (fun hfs hm => (h3 hfs) (List.mem_cons_of_mem key hm))

/-! ## `run`: orchestration

Source (`src/wsl_exec.py`, lines 143–172):

```
def run(self, wsl_cmd, wsl_working_dir="", wsl_env=None, **kwargs):
    # Drop certain arguments, which should not be passed to super class
    wsl_args = {
        k: v for k, v in kwargs.items()
        if k not in {"env", "shell_cmd", "working_dir"}
    }
    # Translate command paramter to what exec expects
    wsl_args["cmd"] = self.wsl_cmd(wsl_cmd, wsl_working_dir)
    # Translate environment variables
    if wsl_env:
        wsl_args["env"] = self.wsl_env(wsl_env)
    # Add path variables converted to unix format
    variables = self.window.extract_variables()
    for var in {"file", "file_path", "folder", "packages", "project", "project_path"}:
        variables["unix_" + var] = self.wsl_path(variables[var])
    # Expanding variables in the arguments given
    wsl_args = sublime.expand_variables(wsl_args, variables)
    super().run(**wsl_args)
```
-/

/-- Values of build-system parameters: strings, argument lists, environment
dictionaries, and opaque pass-through values (e.g. cancellation policy). -/
inductive Val where
  | vstr (s : String)
  | vlist (l : List String)
  | vdict (d : List (String × String))
  | vopaque (n : Nat)
  deriving DecidableEq

/-- The set literal `{"env", "shell_cmd", "working_dir"}` of parameter names
removed from `kwargs` before delegation. -/
def dropParams : List String := ["env", "shell_cmd", "working_dir"]

/-- The parameter dictionary that `run` builds and hands to
`sublime.expand_variables` right before delegating to `super().run`:
`kwargs` filtered, then `cmd` assigned, then (if `wsl_env` is truthy, i.e.
neither `None` nor empty) `env` assigned.  A `wsl_env` failure propagates. -/
def run_args (wslCmdParam : List String) (wslWorkingDir : String)
    (wslEnvParam : Option (List (String × String)))
    (kwargs : List (String × Val)) : Except Unit (List (String × Val)) :=
  let wslArgs := kwargs.filter (fun kv => decide (¬ kv.1 ∈ dropParams))
  let wslArgs2 := dinsert wslArgs "cmd" (Val.vlist (wsl_cmd wslCmdParam wslWorkingDir))
  match wslEnvParam with
  | none => .ok wslArgs2
  | some e =>
    if e = [] then .ok wslArgs2
    else (wsl_env e).map (fun e2 => dinsert wslArgs2 "env" (Val.vdict e2))

/-- Modelled from the spec: `sublime.expand_variables` is the editor's
variable-expansion engine, an external collaborator this repository does not
implement (spec section 1, "Out of scope").  Per spec section 4.4 step 3 it
performs textual substitution of `$name` tokens inside the values of the
parameter set; it never adds, removes or renames keys.  It is therefore
modelled as an arbitrary transformation `f` applied to each value. -/
def expand_variables (f : Val → Val) (d : List (String × Val)) : List (String × Val) :=
  d.map (fun kv => (kv.1, f kv.2))

/-- The set literal `{"file", "file_path", "folder", "packages", "project",
"project_path"}` of known path variables.  Python iterates a `set` in an
unspecified order; the order chosen here is the one written in the source,
and none of the properties proved below depend on it. -/
def unixPathVars : List String :=
  ["file", "file_path", "folder", "packages", "project", "project_path"]

/-- One iteration of the `for var in {...}` loop:
`variables["unix_" + var] = self.wsl_path(variables[var])`, where a missing
variable would raise `KeyError`. -/
def addUnixStep (d : List (String × String)) (v : String) :
    Except Unit (List (String × String)) :=
  match dlookup d v with
  | some val => .ok (dinsert d ("unix_" ++ v) (wsl_path val))
  | none => .error ()

/-- The whole `for var in {...}` loop of `run`, acting on the variable table
returned by `self.window.extract_variables()` (the host supplies that table,
so it is a parameter here). -/
def add_unix_variables (vars : List (String × String)) :
    Except Unit (List (String × String)) :=
  unixPathVars.foldlM addUnixStep vars

/-- The drive letters (the `<letter>` of a `<letter>:\` local drive path). -/
def driveLetters : List Char :=
  "ABCDEFGHIJKLMNOPQRSTUVWXYZabcdefghijklmnopqrstuvwxyz".data

/-! ## Lemmas about the orchestration -/

theorem dlookup_filter_dropped (kwargs : List (String × Val)) {k : String}
    (hk : k ∈ dropParams) :
    dlookup (kwargs.filter (fun kv => decide (¬ kv.1 ∈ dropParams))) k = none := by
  induction kwargs with
  | nil => rfl
  | cons kv rest ih =>
    by_cases hp : kv.1 ∈ dropParams
    · simpa [List.filter, hp] using ih
    · have : kv.1 ≠ k := fun e => hp (e ▸ hk)
      simpa [List.filter, hp, this] using ih

theorem dlookup_expand (f : Val → Val) (d : List (String × Val)) (k : String) :
    dlookup (expand_variables f d) k = (dlookup d k).map f := by
  induction d with
  | nil => rfl
  | cons kv rest ih =>
    by_cases hk : kv.1 = k
    · simp [expand_variables, hk]
    · simpa [expand_variables, hk] using ih

theorem string_append_left_cancel {s a b : String} (h : s ++ a = s ++ b) : a = b := by
  have hd : (s ++ a).data = (s ++ b).data := by rw [h]
  rw [String.data_append, String.data_append] at hd
  exact String.ext (List.append_cancel_left hd)

theorem addUnix_fold_frame :
    ∀ (us : List String) (d0 d : List (String × String)),
      us.foldlM addUnixStep d0 = .ok d →
      ∀ k, (∀ u ∈ us, k ≠ "unix_" ++ u) → dlookup d k = dlookup d0 k := by
  intro us
  induction us with
  | nil =>
    intro d0 d h k _
    rw [Except.ok.inj h]
  | cons u us ih =>
    intro d0 d h k hk
    cases hl : dlookup d0 u with
    | none =>
      simp only [List.foldlM, addUnixStep, hl] at h
      exact Except.noConfusion h
    | some val =>
      simp only [List.foldlM, addUnixStep, hl] at h
      have hrec := ih _ d h k (fun u2 hu2 => hk u2 (List.mem_cons_of_mem u hu2))
      rw [hrec, dlookup_dinsert_ne _ _ (hk u (List.mem_cons_self u us))]

theorem addUnix_fold_adds :
    ∀ (us : List String) (d0 d : List (String × String)) (u : String),
      us.foldlM addUnixStep d0 = .ok d → u ∈ us → us.Nodup →
      (∀ a ∈ us, ∀ b ∈ us, ("unix_" ++ a) ≠ b) →
      ∀ val, dlookup d0 u = some val →
        dlookup d ("unix_" ++ u) = some (wsl_path val) := by
  intro us
  induction us with
  | nil => intro d0 d u _ hu; exact absurd hu (List.not_mem_nil u)
  | cons a us ih =>
    intro d0 d u h hu hnd hno val hval
    obtain ⟨ha_nin, hnd2⟩ := List.nodup_cons.mp hnd
    cases hl : dlookup d0 a with
    | none =>
      simp only [List.foldlM, addUnixStep, hl] at h
      exact Except.noConfusion h
    | some va =>
      simp only [List.foldlM, addUnixStep, hl] at h
      by_cases hau : a = u
      · subst hau
        have hva : va = val := by rw [hl] at hval; exact Option.some.inj hval
        subst hva
        rw [addUnix_fold_frame us _ d h ("unix_" ++ a)
          (fun b hb e => ha_nin (string_append_left_cancel e ▸ hb))]
        exact dlookup_dinsert_self _ _ _
      · have huus : u ∈ us := by
          rcases List.mem_cons.mp hu with e | hm
          · exact absurd e.symm hau
          · exact hm
        have hval2 : dlookup (dinsert d0 ("unix_" ++ a) (wsl_path va)) u = some val := by
          rw [dlookup_dinsert_ne _ _
            (Ne.symm (hno a (List.mem_cons_self a us) u hu))]
          exact hval
        exact ih _ d u h huus hnd2
          (fun a2 ha2 b hb => hno a2 (List.mem_cons_of_mem a ha2) b (List.mem_cons_of_mem a hb))
          val hval2

/-! ## Shared helper lemmas about `wsl_path` and `wsl_env` -/

theorem uncSubAux_succ (fuel : Nat) (c : Char) (cs : List Char) :
    uncSubAux (fuel + 1) (c :: cs) =
      if uncMarker.isPrefixOf (c :: cs) then
        uncSubAux fuel (((c :: cs).drop uncMarker.length).dropWhile (fun ch => ch ≠ '\\'))
      else c :: uncSubAux fuel cs := rfl

theorem uncSubAux_marker (fuel : Nat) (t : List Char) :
    uncSubAux (fuel + 1) (uncMarker ++ t) =
      uncSubAux fuel (t.dropWhile (fun ch => ch ≠ '\\')) := by
  have hpre : uncMarker.isPrefixOf (uncMarker ++ t) = true :=
    isPrefixOf_append_self uncMarker t
  have e : uncMarker ++ t = '\\' :: (uncMarker.drop 1 ++ t) := rfl
  calc uncSubAux (fuel + 1) (uncMarker ++ t)
      = if uncMarker.isPrefixOf (uncMarker ++ t) then
          uncSubAux fuel (((uncMarker ++ t).drop uncMarker.length).dropWhile
            (fun ch => ch ≠ '\\'))
        else '\\' :: uncSubAux fuel (uncMarker.drop 1 ++ t) := by
          rw [e, uncSubAux_succ, ← e]
    _ = uncSubAux fuel (t.dropWhile (fun ch => ch ≠ '\\')) := by
          rw [hpre, if_pos rfl, List.drop_left]

/-- Translation of a local drive path `<c>:\<rest>`: the guarded branch
always fires (the second character `:` rules out the UNC branch), yielding
`/mnt/`, the lowercased first character, and the remainder, all
slash-normalized. -/
theorem wsl_path_drive (c : Char) (rest : String) :
    wsl_path ⟨c :: ':' :: '\\' :: rest.data⟩ =
      "/mnt/" ++ slashes ⟨pyLower c⟩ ++ "/" ++ slashes rest := by
  have h1 : ¬ ((c :: ':' :: '\\' :: rest.data).take 2 = ['\\', '\\']) := by
    simp
  simp only [wsl_path]
  rw [if_neg h1, if_pos (show ((c :: ':' :: '\\' :: rest.data).drop 1).take 2
    = [':', '\\'] from rfl)]
  apply String.ext
  show slashesL ('/' :: 'm' :: 'n' :: 't' :: '/' :: (pyLower c ++ '\\' :: rest.data))
    = ("/mnt/" ++ slashes ⟨pyLower c⟩ ++ "/" ++ slashes rest).data
  have d1 : ('/' : Char) ≠ '\\' := by decide
  have d2 : ('m' : Char) ≠ '\\' := by decide
  have d3 : ('n' : Char) ≠ '\\' := by decide
  have d4 : ('t' : Char) ≠ '\\' := by decide
  simp [slashes, slashesL, List.map_append, String.data_append, d1, d2, d3, d4]

/-- A path without backslashes is left unchanged by `wsl_path`. -/
theorem wsl_path_no_backslash (p : String) (h : ¬ '\\' ∈ p.data) :
    wsl_path p = p := by
  have h1 : ¬ (p.data.take 2 = ['\\', '\\']) := by
    intro e
    apply h
    apply List.take_subset 2 p.data
    rw [e]
    simp
  have h2 : ¬ ((p.data.drop 1).take 2 = [':', '\\']) := by
    intro e
    apply h
    apply List.drop_subset 1 p.data
    apply List.take_subset 2 (p.data.drop 1)
    rw [e]
    simp
  simp only [wsl_path]
  rw [if_neg h1, if_neg h2]
  have hs : slashesL p.data = p.data := by
    unfold slashesL
    have : ∀ a ∈ p.data, (if a = '\\' then '/' else a) = a := by
      intro a ha
      apply if_neg
      intro e
      rw [e] at ha
      exact h ha
    rw [List.map_congr_left this]
    simp
  exact String.ext hs

/-- `wsl_env` succeeds whenever the keys are distinct (as for a Python
`dict`) and each has at least two characters. -/
theorem wsl_env_ok (env : List (String × String))
    (hnd : (dkeys env).Nodup)
    (hlen : ∀ k ∈ dkeys env, 2 ≤ k.data.length) :
    ∃ d, wsl_env env = Except.ok d := by
  unfold wsl_env
  apply wslEnvLoop_ok
  · intro k hk
    rcases mem_dkeys_dinsert.mp hk with h | h
    · exact hlen k h
    · subst h
      decide
  · exact nodup_dkeys_dinsert hnd
  · exact fun k hk => hk

/-! ## Claim C1 -/

/-- C1 (counterexample): the claim says `translate` strips the UNC prefix for
*any* host name, e.g. `translate("\\host\Distro\a\b") = "/a/b"`.  It does not:
the substitution only matches the literal host `wsl.localhost`, so for the
host `host` nothing is stripped and the result is `//host/Distro/a/b`. -/
theorem c1_unc_any_host_counterexample :
    wsl_path "\\\\host\\Distro\\a\\b" = "//host/Distro/a/b" ∧
    "//host/Distro/a/b" ≠ "/a/b" := by
  constructor
  · rfl
  · decide

/-- C1 (amended): for every subsystem UNC path whose host is the literal
`wsl.localhost` — `\\wsl.localhost\<distro>\<rest>` with an arbitrary
backslash-free distro name, and a remainder that does not itself contain the
`\\wsl.localhost\` marker — `wsl_path` strips the entire UNC prefix and
yields the remainder rendered with forward slashes: `/<rest with slashes>`. -/
theorem c1_unc_prefix_stripped_amended (distro rest : String)
    (hd : ∀ ch ∈ distro.data, ch ≠ '\\')
    (hr : ¬ List.IsInfix uncMarker ('\\' :: rest.data)) :
    wsl_path ("\\\\wsl.localhost\\" ++ distro ++ "\\" ++ rest) = "/" ++ slashes rest := by
  have hdata : ("\\\\wsl.localhost\\" ++ distro ++ "\\" ++ rest).data
      = uncMarker ++ (distro.data ++ '\\' :: rest.data) := by
    show ((uncMarker ++ distro.data) ++ ['\\']) ++ rest.data
        = uncMarker ++ (distro.data ++ '\\' :: rest.data)
    simp [List.append_assoc]
  simp only [wsl_path]
  rw [hdata]
  rw [if_pos (show (uncMarker ++ (distro.data ++ '\\' :: rest.data)).take 2
    = ['\\', '\\'] from rfl)]
  unfold uncSub
  rw [List.length_append]
  rw [show uncMarker.length = 16 from rfl]
  rw [show 16 + (distro.data ++ '\\' :: rest.data).length
    = (15 + (distro.data ++ '\\' :: rest.data).length) + 1 from by omega]
  rw [uncSubAux_marker]
  rw [dropWhile_ne_backslash distro.data rest.data hd]
  rw [uncSubAux_no_occurrence _ _ hr]
  rfl

/-- C1 (amended, witness): instantiated at distro `Ubuntu` and remainder
`home\me`, the amended claim gives `/home/me`. -/
theorem c1_unc_prefix_stripped_witness :
    wsl_path "\\\\wsl.localhost\\Ubuntu\\home\\me" = "/home/me" := by
  have h := c1_unc_prefix_stripped_amended "Ubuntu" "home\\me"
    (by decide) (by decide)
  exact h.trans (by rfl)

/-! ## Claim C4 -/

/-- C4: for every local drive path `<letter>:\<remainder>` the translation is
`/mnt/<lowercased letter>/<remainder with forward slashes>`. -/
theorem c4_drive_path_translation (c : Char) (rest : String)
    (h : c ∈ driveLetters) :
    wsl_path ⟨c :: ':' :: '\\' :: rest.data⟩ =
      "/mnt/" ++ (⟨[c.toLower]⟩ : String) ++ "/" ++ slashes rest := by
  have hp : pyLower c = [c.toLower] := by
    have hall : ∀ x ∈ driveLetters, pyLower x = [x.toLower] := by decide
    exact hall c h
  have hlow : c.toLower ≠ '\\' := by
    have hall : ∀ x ∈ driveLetters, x.toLower ≠ '\\' := by decide
    exact hall c h
  have hs : slashes ⟨pyLower c⟩ = (⟨[c.toLower]⟩ : String) := by
    apply String.ext
    show slashesL (pyLower c) = [c.toLower]
    rw [hp]
    simp [slashesL, hlow]
  rw [← hs]
  exact wsl_path_drive c rest

/-- C4 (witness): `translate("X:\a\b") = "/mnt/x/a/b")`. -/
theorem c4_drive_path_translation_witness :
    'X' ∈ driveLetters ∧ wsl_path "X:\\a\\b" = "/mnt/x/a/b" := by
  refine ⟨by decide, ?_⟩
  have h := c4_drive_path_translation 'X' "a\\b" (by decide)
  exact h.trans (by rfl)

/-! ## Claim C10 -/

/-- C10: for every string whose second and third characters are `:` and `\` —
whatever the first character is, alphabetic or not — `wsl_path` applies the
drive rewrite: `/mnt/`, the first character lowercased by CPython's full
Unicode `str.lower` mapping (`pyLower`), and the remainder, all
slash-normalized (e.g. `translate("1:\a") = "/mnt/1/a"`). -/
theorem c10_drive_rewrite_any_first_char (c : Char) (rest : String) :
    wsl_path ⟨c :: ':' :: '\\' :: rest.data⟩ =
      "/mnt/" ++ slashes ⟨pyLower c⟩ ++ "/" ++ slashes rest :=
  wsl_path_drive c rest

/-! ## Claim C9 -/

/-- C9: on paths that contain no backslash, `wsl_path` is idempotent (indeed
it is the identity, so applying it twice equals applying it once). -/
theorem c9_idempotent_on_forward_slash_paths (p : String) (h : ¬ '\\' ∈ p.data) :
    wsl_path (wsl_path p) = wsl_path p := by
  rw [wsl_path_no_backslash p h]
  exact wsl_path_no_backslash p h

/-- C9 (witness): instantiated at `/a/b`. -/
theorem c9_idempotent_witness :
    ¬ '\\' ∈ ("/a/b" : String).data ∧
      wsl_path (wsl_path "/a/b") = wsl_path "/a/b" :=
  ⟨by decide, c9_idempotent_on_forward_slash_paths "/a/b" (by decide)⟩

/-! ## Claim C5 -/

/-- C5: with an empty working directory `assemble(cmd, "")` is `["wsl"] ++ cmd`;
with a non-empty one it is `["wsl", "cd", translate(cwd), ";"] ++ cmd`; in both
cases the original command elements follow the prefix unchanged and in order. -/
theorem c5_assemble_command (cmd : List String) (cwd : String) :
    (cwd = "" → wsl_cmd cmd cwd = "wsl" :: cmd) ∧
    (cwd ≠ "" → wsl_cmd cmd cwd = "wsl" :: "cd" :: wsl_path cwd :: ";" :: cmd) := by
  constructor
  · intro h
    simp [wsl_cmd, h]
  · intro h
    simp [wsl_cmd, h]

/-- C5 (witness): the two spec examples,
`assemble(["a","b"], "") = ["wsl","a","b"]` and
`assemble(["a"], "C:\proj") = ["wsl","cd","/mnt/c/proj",";","a"]`. -/
theorem c5_assemble_command_witness :
    wsl_cmd ["a", "b"] "" = ["wsl", "a", "b"] ∧
    wsl_cmd ["a"] "C:\\proj" = ["wsl", "cd", "/mnt/c/proj", ";", "a"] := by
  constructor
  · exact (c5_assemble_command ["a", "b"] "").1 rfl
  · have h := (c5_assemble_command ["a"] "C:\\proj").2 (by decide)
    exact h.trans (by rfl)

/-! ## Claim C2 -/

/-- C2 (counterexample): the claim says `package` completes on *every*
string-to-string mapping, including mappings with keys of fewer than two
characters.  It does not: on `{"x": "y"}` the flag test `key[-2]` raises
`IndexError` (modelled as `.error ()`). -/
theorem c2_totality_counterexample :
    wsl_env [("x", "y")] = Except.error () := rfl

/-- C2 (amended): `wsl_path` and `wsl_cmd` are total (they are plain
functions of this development), and `wsl_env` completes without error on
every mapping whose keys are distinct and have at least two characters —
the flag test reads the key's last two characters and fails on shorter
keys. -/
theorem c2_totality_amended (env : List (String × String))
    (hnd : (dkeys env).Nodup)
    (hlen : ∀ k ∈ dkeys env, 2 ≤ k.data.length) :
    ∃ d, wsl_env env = Except.ok d :=
  wsl_env_ok env hnd hlen

/-- C2 (amended, witness): `wsl_env` succeeds on `{"PATH/p": "C:\x"}`. -/
theorem c2_totality_witness :
    ∃ d, wsl_env [("PATH/p", "C:\\x")] = Except.ok d :=
  c2_totality_amended [("PATH/p", "C:\\x")] (by decide) (by decide)

/-! ## Claim C3 -/

/-- C3 (counterexample): the claim says every flagged key is re-emitted under
its unflagged name with the *same value*, for *every* input mapping.  On
`{"PATH/p/p": "v1", "PATH/p": "v2"}` the first iteration overwrites the entry
`PATH/p` with value `v1`, so the flagged key `PATH/p` (input value `v2`) ends
up re-emitted as `PATH = "v1"`, not `"v2"`. -/
theorem c3_flag_reemission_counterexample :
    (wsl_env [("PATH/p/p", "v1"), ("PATH/p", "v2")]).map (fun d => dlookup d "PATH")
      = Except.ok (some "v1") ∧ some "v1" ≠ some "v2" := by
  constructor
  · rfl
  · decide

/-- C3 (amended): for every mapping whose keys are distinct with at least two
characters, whose flagged keys have pairwise-distinct unflagged names, and
where no flagged key's unflagged name is itself a flagged key of the mapping,
`wsl_env` re-emits every flagged key under its unflagged name with the same
value, and the flagged key itself is absent from the output. -/
theorem c3_flag_reemission_amended (env : List (String × String))
    (hnd : (dkeys env).Nodup)
    (hlen : ∀ k ∈ dkeys env, 2 ≤ k.data.length)
    (hstrips : ∀ k1 ∈ dkeys env, ∀ k2 ∈ dkeys env, isFlagged k1 = true →
      isFlagged k2 = true → k1 ≠ k2 → stripFlag k1 ≠ stripFlag k2)
    (hnotkey : ∀ k1 ∈ dkeys env, isFlagged k1 = true → ∀ k2 ∈ dkeys env,
      isFlagged k2 = true → stripFlag k1 ≠ k2) :
    ∃ d, wsl_env env = Except.ok d ∧ ∀ k v, dlookup env k = some v →
      isFlagged k = true → dlookup d (stripFlag k) = some v ∧ dlookup d k = none := by
  obtain ⟨d, hd⟩ := wsl_env_ok env hnd hlen
  refine ⟨d, hd, ?_⟩
  intro k v hv hf
  unfold wsl_env at hd
  have hkmem : k ∈ dkeys env := mem_dkeys_of_dlookup hv
  have hkW : k ≠ "WSLENV" := by
    intro e
    rw [e] at hf
    exact absurd hf (by decide)
  have hWf : isFlagged "WSLENV" = false := by decide
  apply wslEnvLoop_flag_key _ _ d k v hd
  · exact mem_dkeys_dinsert.mpr (Or.inl hkmem)
  · exact hf
  · rw [dlookup_dinsert_ne _ _ hkW]
    exact hv
  · exact nodup_dkeys_dinsert hnd
  · intro j hj hfj hjk
    rcases mem_dkeys_dinsert.mp hj with h | h
    · exact hstrips j h k hkmem hfj hf hjk
    · rw [h] at hfj
      exact absurd hfj (by simp [hWf])
  · intro j hj hfj
    rcases mem_dkeys_dinsert.mp hj with h | h
    · exact hnotkey j h hfj k hkmem hf
    · rw [h] at hfj
      exact absurd hfj (by simp [hWf])
  · intro hfs hmem
    rcases mem_dkeys_dinsert.mp hmem with h | h
    · exact hnotkey k hkmem hf (stripFlag k) h hfs rfl
    · rw [h] at hfs
      exact absurd hfs (by simp [hWf])

/-- C3 (amended, witness): on `{"PATH/p": "C:\x"}` the output maps `PATH` to
`C:\x` and has no `PATH/p` entry. -/
theorem c3_flag_reemission_witness :
    ∃ d, wsl_env [("PATH/p", "C:\\x")] = Except.ok d ∧
      dlookup d "PATH" = some "C:\\x" ∧ dlookup d "PATH/p" = none := by
  obtain ⟨d, hok, hprop⟩ := c3_flag_reemission_amended [("PATH/p", "C:\\x")]
    (by decide) (by decide) (by decide) (by decide)
  have h2 := hprop "PATH/p" "C:\\x" rfl (by decide)
  rw [show stripFlag "PATH/p" = "PATH" from rfl] at h2
  exact ⟨d, hok, h2.1, h2.2⟩

/-! ## Claim C8 -/

/-- C8 (counterexample): the claim says that for *every* input mapping the
`WSLENV` entry of the output is the colon-joined list of original keys.  On
`{"WSLENV/p": "x"}` the flagged key is re-emitted under the name `WSLENV`,
overwriting the manifest: the output's `WSLENV` entry is `"x"`, not the
joined key list `"WSLENV/p"`. -/
theorem c8_manifest_counterexample :
    (wsl_env [("WSLENV/p", "x")]).map (fun d => dlookup d "WSLENV")
      = Except.ok (some "x") ∧
    some "x" ≠ some (String.intercalate ":" (dkeys [("WSLENV/p", "x")])) := by
  constructor
  · rfl
  · decide

/-- C8 (amended): for every mapping whose keys are distinct with at least two
characters and in which no flagged key's unflagged name is `WSLENV`, the
output's `WSLENV` entry is the colon-joined list of the original input keys
(flag suffixes included), in the input's iteration order. -/
theorem c8_manifest_amended (env : List (String × String))
    (hnd : (dkeys env).Nodup)
    (hlen : ∀ k ∈ dkeys env, 2 ≤ k.data.length)
    (hW : ∀ k ∈ dkeys env, isFlagged k = true → stripFlag k ≠ "WSLENV") :
    ∃ d, wsl_env env = Except.ok d ∧
      dlookup d "WSLENV" = some (String.intercalate ":" (dkeys env)) := by
  obtain ⟨d, hd⟩ := wsl_env_ok env hnd hlen
  refine ⟨d, hd, ?_⟩
  unfold wsl_env at hd
  have hWf : isFlagged "WSLENV" = false := by decide
  rw [wslEnvLoop_preserve _ _ d "WSLENV" hd ?_ ?_]
  · exact dlookup_dinsert_self env "WSLENV" _
  · intro j hj hfj
    rcases mem_dkeys_dinsert.mp hj with h | h
    · exact hW j h hfj
    · rw [h] at hfj
      exact absurd hfj (by simp [hWf])
  · intro hfs
    exact absurd hfs (by simp [hWf])

/-- C8 (amended, witness): on `{"PATH/p": "C:\x", "AB": "y"}` the output's
`WSLENV` entry is `"PATH/p:AB"`, the original keys joined in order. -/
theorem c8_manifest_witness :
    ∃ d, wsl_env [("PATH/p", "C:\\x"), ("AB", "y")] = Except.ok d ∧
      dlookup d "WSLENV" = some "PATH/p:AB" := by
  obtain ⟨d, hok, hW⟩ := c8_manifest_amended [("PATH/p", "C:\\x"), ("AB", "y")]
    (by decide) (by decide) (by decide)
  refine ⟨d, hok, ?_⟩
  rw [hW]
  rfl

/-! ## Claim C6 -/

theorem runargs_core_shell_cmd (kwargs : List (String × Val)) (c : Val) :
    dlookup (dinsert (kwargs.filter (fun kv => decide (¬ kv.1 ∈ dropParams))) "cmd" c)
      "shell_cmd" = none := by
  rw [dlookup_dinsert_ne _ _ (by decide)]
  exact dlookup_filter_dropped kwargs (by decide)

theorem runargs_core_working_dir (kwargs : List (String × Val)) (c : Val) :
    dlookup (dinsert (kwargs.filter (fun kv => decide (¬ kv.1 ∈ dropParams))) "cmd" c)
      "working_dir" = none := by
  rw [dlookup_dinsert_ne _ _ (by decide)]
  exact dlookup_filter_dropped kwargs (by decide)

theorem runargs_core_env (kwargs : List (String × Val)) (c : Val) :
    dlookup (dinsert (kwargs.filter (fun kv => decide (¬ kv.1 ∈ dropParams))) "cmd" c)
      "env" = none := by
  rw [dlookup_dinsert_ne _ _ (by decide)]
  exact dlookup_filter_dropped kwargs (by decide)

/-- C6: whatever raw parameter set reaches `run`, the parameter set it
delegates (after variable expansion, which rewrites values but not keys)
never inherits the raw `cmd`, `shell_cmd`, `env` or `working_dir`:
`shell_cmd` and `working_dir` are absent, `cmd` is always the freshly
computed `wsl_cmd` result, and an `env` entry can only be the freshly
computed `wsl_env` result of the `wsl_env` parameter. -/
theorem c6_no_raw_field_leak (wc : List String) (wd : String)
    (we : Option (List (String × String))) (kwargs : List (String × Val))
    (f : Val → Val) (d : List (String × Val))
    (h : run_args wc wd we kwargs = Except.ok d) :
    dlookup (expand_variables f d) "shell_cmd" = none ∧
    dlookup (expand_variables f d) "working_dir" = none ∧
    dlookup (expand_variables f d) "cmd" = some (f (Val.vlist (wsl_cmd wc wd))) ∧
    (∀ x, dlookup (expand_variables f d) "env" = some x →
      ∃ e e2, we = some e ∧ wsl_env e = Except.ok e2 ∧ x = f (Val.vdict e2)) := by
  cases we with
  | none =>
    simp only [run_args] at h
    have hd := Except.ok.inj h
    subst hd
    refine ⟨?_, ?_, ?_, ?_⟩
    · rw [dlookup_expand, runargs_core_shell_cmd]
      rfl
    · rw [dlookup_expand, runargs_core_working_dir]
      rfl
    · rw [dlookup_expand, dlookup_dinsert_self]
      rfl
    · intro x hx
      rw [dlookup_expand, runargs_core_env] at hx
      exact Option.noConfusion hx
  | some e =>
    simp only [run_args] at h
    by_cases he : e = []
    · rw [if_pos he] at h
      have hd := Except.ok.inj h
      subst hd
      refine ⟨?_, ?_, ?_, ?_⟩
      · rw [dlookup_expand, runargs_core_shell_cmd]
        rfl
      · rw [dlookup_expand, runargs_core_working_dir]
        rfl
      · rw [dlookup_expand, dlookup_dinsert_self]
        rfl
      · intro x hx
        rw [dlookup_expand, runargs_core_env] at hx
        exact Option.noConfusion hx
    · rw [if_neg he] at h
      cases hwe : wsl_env e with
      | error u =>
        rw [hwe] at h
        exact Except.noConfusion h
      | ok e2 =>
        rw [hwe] at h
        have hd := Except.ok.inj h
        subst hd
        refine ⟨?_, ?_, ?_, ?_⟩
        · rw [dlookup_expand, dlookup_dinsert_ne _ _ (by decide),
            runargs_core_shell_cmd]
          rfl
        · rw [dlookup_expand, dlookup_dinsert_ne _ _ (by decide),
            runargs_core_working_dir]
          rfl
        · rw [dlookup_expand, dlookup_dinsert_ne _ _ (by decide),
            dlookup_dinsert_self]
          rfl
        · intro x hx
          rw [dlookup_expand, dlookup_dinsert_self] at hx
          exact ⟨e, e2, rfl, hwe, (Option.some.inj hx).symm⟩

/-! ## Claim C7 -/

/-- C7: after `run` adds the unix-translated counterparts to the variable
table, every variable not named `unix_<known var>` still has its original
value (in particular every original host-style variable is untouched), and
each known path variable `v` gains an entry `unix_<v>` holding
`wsl_path` of `v`'s value. -/
theorem c7_unix_variables_added (vars d : List (String × String))
    (h : add_unix_variables vars = Except.ok d) :
    (∀ k, (∀ v ∈ unixPathVars, k ≠ "unix_" ++ v) → dlookup d k = dlookup vars k) ∧
    (∀ v ∈ unixPathVars, ∀ val, dlookup vars v = some val →
      dlookup d ("unix_" ++ v) = some (wsl_path val)) := by
  constructor
  · intro k hk
    exact addUnix_fold_frame unixPathVars vars d h k hk
  · intro v hv val hval
    exact addUnix_fold_adds unixPathVars vars d v h hv (by decide) (by decide) val hval

/-- Concrete raw parameter set for exercising C6: it maliciously carries
`cmd`, `shell_cmd`, `env` and `working_dir` entries next to a legitimate
pass-through `cancel` option. -/
def c6kwargs : List (String × Val) :=
  [("cmd", Val.vstr "bad"), ("shell_cmd", Val.vstr "bad"), ("env", Val.vstr "bad"),
   ("working_dir", Val.vstr "bad"), ("cancel", Val.vopaque 0)]

/-- The parameter set `run_args` produces from `c6kwargs`. -/
def c6out : List (String × Val) :=
  [("cmd", Val.vlist ["wsl", "echo", "hi"]), ("cancel", Val.vopaque 0),
   ("env", Val.vdict [("AB", "x"), ("WSLENV", "AB")])]

/-- C6 (witness): on the concrete raw parameter set `c6kwargs` the delegated
set has no `shell_cmd` or `working_dir`, its `cmd` is the freshly assembled
command, and its `env` is the freshly packaged environment. -/
theorem c6_no_raw_field_leak_witness :
    dlookup (expand_variables id c6out) "shell_cmd" = none ∧
    dlookup (expand_variables id c6out) "working_dir" = none ∧
    dlookup (expand_variables id c6out) "cmd"
      = some (id (Val.vlist (wsl_cmd ["echo", "hi"] ""))) ∧
    dlookup (expand_variables id c6out) "env"
      = some (id (Val.vdict [("AB", "x"), ("WSLENV", "AB")])) := by
  have h : run_args ["echo", "hi"] "" (some [("AB", "x")]) c6kwargs
      = Except.ok c6out := rfl
  have hc := c6_no_raw_field_leak ["echo", "hi"] "" (some [("AB", "x")])
    c6kwargs id c6out h
  exact ⟨hc.1, hc.2.1, hc.2.2.1, by rfl⟩

/-- Concrete variable table for exercising C7 (what
`window.extract_variables()` typically returns, abridged). -/
def c7vars : List (String × String) :=
  [("file", "C:\\a\\f.txt"), ("file_path", "C:\\a"), ("folder", "C:\\a"),
   ("packages", "C:\\P"), ("project", "C:\\a\\p.sublime-project"),
   ("project_path", "C:\\a"), ("platform", "windows")]

/-- The variable table after `run` adds the `unix_*` counterparts. -/
def c7out : List (String × String) :=
  c7vars ++
  [("unix_file", "/mnt/c/a/f.txt"), ("unix_file_path", "/mnt/c/a"),
   ("unix_folder", "/mnt/c/a"), ("unix_packages", "/mnt/c/P"),
   ("unix_project", "/mnt/c/a/p.sublime-project"), ("unix_project_path", "/mnt/c/a")]

/-- C7 (witness): on the concrete table `c7vars`, the original `file`
variable keeps its value and `unix_file` holds its translation. -/
theorem c7_unix_variables_added_witness :
    add_unix_variables c7vars = Except.ok c7out ∧
    dlookup c7out "file" = some "C:\\a\\f.txt" ∧
    dlookup c7out "unix_file" = some "/mnt/c/a/f.txt" := by
  have h : add_unix_variables c7vars = Except.ok c7out := rfl
  have hc := c7_unix_variables_added c7vars c7out h
  refine ⟨h, ?_, ?_⟩
  · exact (hc.1 "file" (by decide)).trans rfl
  · have h2 := hc.2 "file" (by decide) "C:\\a\\f.txt" rfl
    exact h2.trans (by rfl)

end WslBuild
